import Mathlib

/-!
Verification of the event router / connection-lifecycle state machine and the
database bootstrap of the gcode-3d server (src/main.rs).

The router loop (`Manager::start`) is embedded as a pure step function
`routerStep` over an explicit state (`bridge_thread : Option Unit`, the
worker handle made abstract) and an explicit channel environment recording
whether each outbound channel still has a live receiver.  Sends performed
with `.expect(...)` panic when the channel is closed; the one send performed
with `let _ = ...` (the Kill signal on teardown) ignores failure.  A `panic`
result carries the outputs that were already enqueued before the panic.

The database bootstrap (`setup_db`) is embedded over a relational model of
the three tables, with `INSERT OR IGNORE` as insert-if-absent on the primary
key and the token cleanup as a filter against the current date.
-/

/-- Connection-health states reported by the bridge worker.  `DISCONNECTED`
and `ERRORED` are the teardown-triggering values branched on by the router;
`CONNECTING` and `CONNECTED` stand for the alive values that are forwarded
untouched. -/
inductive BridgeState
  | DISCONNECTED
  | ERRORED
  | CONNECTING
  | CONNECTED
deriving DecidableEq, Repr

/-- Human-readable context attached to a state transition.  The router only
ever constructs the `Error` variant; anything else is opaque payload. -/
inductive StateDescription
  | Error (message : String)
  | Other (payload : String)
deriving DecidableEq, Repr

/-- Print-job metadata; opaque to the router. -/
structure PrintInfo where
  payload : String
deriving DecidableEq, Repr

/-- Events originating from, or destined for, the device-bridge worker. -/
inductive BridgeEvents
  | ConnectionCreate (address : String) (port : Nat)
  | ConnectionCreateError (error : String)
  | TerminalRead (message : String)
  | TerminalSend (message : String)
  | PrintStart (info : PrintInfo)
  | PrintEnd
  | StateUpdate (state : BridgeState) (description : StateDescription)
deriving DecidableEq, Repr

/-- Events destined for, or originating from, remote websocket clients. -/
inductive WebsocketEvents
  | StateUpdate (state : BridgeState) (description : StateDescription)
  | TerminalRead (message : String)
  | TerminalSend (message : String)
deriving DecidableEq, Repr

/-- The closed event taxonomy dispatched on by the router. -/
inductive EventType
  | Bridge (e : BridgeEvents)
  | Websocket (e : WebsocketEvents)
  | KILL
deriving DecidableEq, Repr

/-- The envelope type sent over every channel. -/
structure EventInfo where
  event_type : EventType
deriving DecidableEq, Repr

/-- Router state: `bridge_thread` is `some` exactly when a device-bridge
worker handle is held (the handle itself is abstracted to `Unit`). -/
structure RouterState where
  bridge_thread : Option Unit
deriving DecidableEq, Repr

/-- Whether each outbound channel still has a live receiver; a send on a
closed channel fails. -/
structure ChanEnv where
  distOpen : Bool
  bridgeOpen : Bool
  wsOpen : Bool
deriving DecidableEq, Repr

/-- Normal operation: every channel receiver is alive. -/
def openEnv : ChanEnv := ⟨true, true, true⟩

/-- The messages a single router iteration enqueues on each channel, in send
order, together with the side effects on worker tasks. -/
structure Outputs where
  dist : List EventInfo
  bridge : List EventInfo
  ws : List EventInfo
  spawned : Bool
  aborted : Bool
deriving DecidableEq, Repr

/-- No messages, no task effects. -/
def Outputs.empty : Outputs := ⟨[], [], [], false, false⟩

/-- Result of one router iteration: either a new state with the outputs it
enqueued, or a process panic carrying the outputs enqueued before it. -/
inductive StepResult
  | ok (state : RouterState) (out : Outputs)
  | panic (msg : String) (out : Outputs)
deriving DecidableEq, Repr

/-- Outputs enqueued by the iteration, also for a panicking one. -/
def StepResult.outputs : StepResult → Outputs
  | .ok _ o => o
  | .panic _ o => o

/-- Whether the iteration aborted the process. -/
def StepResult.isPanic : StepResult → Bool
  | .ok _ _ => false
  | .panic _ _ => true

/-- One iteration of the `for event in dist_receiver.iter()` loop of
`Manager::start` (src/main.rs lines 60-206), branch by branch. -/
def routerStep (env : ChanEnv) (st : RouterState) (event : EventInfo) :
    StepResult :=
  match event.event_type with
  | .Bridge (.ConnectionCreate _address _port) =>
      if st.bridge_thread.isSome then
        .panic "Created connection before old connection was terminated"
          Outputs.empty
      else
        .ok ⟨some ()⟩ { Outputs.empty with spawned := true }
  | .Bridge (.ConnectionCreateError error) =>
      if env.distOpen then
        let notif : EventInfo :=
          ⟨.Websocket (.StateUpdate .ERRORED (.Error error))⟩
        match st.bridge_thread with
        | some _ =>
            .ok ⟨none⟩ { Outputs.empty with dist := [notif], aborted := true }
        | none =>
            .panic "Connection error when thread was already closed."
              { Outputs.empty with dist := [notif] }
      else
        .panic "Cannot send message" Outputs.empty
  | .Bridge (.TerminalRead message) =>
      if env.distOpen then
        .ok st { Outputs.empty with
                   dist := [⟨.Websocket (.TerminalRead message)⟩] }
      else
        .panic "Cannot send message" Outputs.empty
  | .Bridge (.TerminalSend message) =>
      if st.bridge_thread.isNone then
        .ok st Outputs.empty
      else if env.bridgeOpen then
        if env.distOpen then
          .ok st { Outputs.empty with
                     bridge := [⟨.Bridge (.TerminalSend message)⟩],
                     dist := [⟨.Websocket (.TerminalSend message)⟩] }
        else
          .panic "Cannot send message"
            { Outputs.empty with
                bridge := [⟨.Bridge (.TerminalSend message)⟩] }
      else
        .panic "Cannot send message" Outputs.empty
  | .Bridge .PrintEnd =>
      if env.bridgeOpen then
        .ok st { Outputs.empty with bridge := [⟨.Bridge .PrintEnd⟩] }
      else
        .panic "Cannot send message" Outputs.empty
  | .Bridge (.PrintStart info) =>
      if st.bridge_thread.isNone then
        .ok st Outputs.empty
      else if env.bridgeOpen then
        .ok st { Outputs.empty with bridge := [⟨.Bridge (.PrintStart info)⟩] }
      else
        .panic "Cannot send message" Outputs.empty
  | .Bridge (.StateUpdate state description) =>
      if st.bridge_thread.isNone then
        .ok st Outputs.empty
      else if state = .DISCONNECTED || state = .ERRORED then
        let killOut : List EventInfo := if env.bridgeOpen then [⟨.KILL⟩] else []
        if env.distOpen then
          .ok ⟨none⟩
            { Outputs.empty with
                bridge := killOut,
                dist := [⟨.Websocket (.StateUpdate state description)⟩] }
        else
          .panic "Cannot send message" { Outputs.empty with bridge := killOut }
      else
        if env.bridgeOpen then
          if env.distOpen then
            .ok st { Outputs.empty with
                       bridge := [⟨.Bridge (.StateUpdate state description)⟩],
                       dist :=
                         [⟨.Websocket (.StateUpdate state description)⟩] }
          else
            .panic "Cannot send message"
              { Outputs.empty with
                  bridge := [⟨.Bridge (.StateUpdate state description)⟩] }
        else
          .panic "Cannot send message" Outputs.empty
  | .Websocket ws_event =>
      if env.wsOpen then
        .ok st { Outputs.empty with ws := [⟨.Websocket ws_event⟩] }
      else
        .panic "Failed to send message to websocket" Outputs.empty
  | .KILL => .ok st Outputs.empty

/-- Result of draining the distribution channel: the final state together
with everything sent to bridge-outbound and websocket-outbound, a panic
carrying what was sent before it, or fuel exhaustion. -/
inductive RunResult
  | drained (state : RouterState) (bridge ws : List EventInfo)
  | panicked (msg : String) (bridge ws : List EventInfo)
  | outOfFuel
deriving DecidableEq, Repr

/-- The websocket-outbound traffic of a run. -/
def RunResult.wsOut : RunResult → List EventInfo
  | .drained _ _ w => w
  | .panicked _ _ w => w
  | .outOfFuel => []

/-- The bridge-outbound traffic of a run. -/
def RunResult.bridgeOut : RunResult → List EventInfo
  | .drained _ b _ => b
  | .panicked _ b _ => b
  | .outOfFuel => []

/-- Whether the run drained the queue without panicking. -/
def RunResult.isDrained : RunResult → Bool
  | .drained _ _ _ => true
  | _ => false

/-- The router loop run to completion on a queue: each iteration dequeues
the head and appends its own distribution-channel sends to the tail, exactly
as the loop in `Manager::start` re-enqueues websocket-bound mirrors through
`dist_sender` and dequeues them on a later pass.  `fuel` bounds the number
of iterations. -/
def routerRun (env : ChanEnv) : Nat → RouterState → List EventInfo → RunResult
  | _, st, [] => .drained st [] []
  | 0, _, _ :: _ => .outOfFuel
  | fuel + 1, st, e :: rest =>
      match routerStep env st e with
      | .panic msg out => .panicked msg out.bridge out.ws
      | .ok st2 out =>
          match routerRun env fuel st2 (rest ++ out.dist) with
          | .drained st3 b w => .drained st3 (out.bridge ++ b) (out.ws ++ w)
          | .panicked msg b w => .panicked msg (out.bridge ++ b) (out.ws ++ w)
          | .outOfFuel => .outOfFuel

/-- Direct forwarding of the websocket-bound mirrors, stated from the
claim's words: the mirror each accepted bridge-originated data or state
event generates is delivered straight to the websocket-outbound channel,
with no pass through the distribution channel. -/
def directMirror (st : RouterState) (event : EventInfo) : List EventInfo :=
  match event.event_type with
  | .Bridge (.TerminalRead m) => [⟨.Websocket (.TerminalRead m)⟩]
  | .Bridge (.TerminalSend m) =>
      if st.bridge_thread.isSome then [⟨.Websocket (.TerminalSend m)⟩] else []
  | .Bridge (.StateUpdate s d) =>
      if st.bridge_thread.isSome then [⟨.Websocket (.StateUpdate s d)⟩]
      else []
  | _ => []

/-- A row of the `users` table (`username` is the primary key). -/
structure UsersRow where
  username : String
  password : String
  permissions : Int
deriving DecidableEq, Repr

/-- A row of the `tokens` table (`token` is the primary key; `expire` is a
nullable DATETIME, modelled as an integer timestamp). -/
structure TokensRow where
  username : String
  token : String
  expire : Option Int
deriving DecidableEq, Repr

/-- A row of the `settings` table (`id` is the primary key). -/
structure SettingsRow where
  id : String
  value : Option String
  ty : Int
deriving DecidableEq, Repr

/-- The persistent store: the three tables created by `setup_db`. -/
structure DB where
  users : List UsersRow
  tokens : List TokensRow
  settings : List SettingsRow
deriving DecidableEq, Repr

attribute [ext] DB

/-- A store with the three tables present but empty. -/
def emptyDB : DB := ⟨[], [], []⟩

/-- `INSERT OR IGNORE INTO SETTINGS (id, type, value) VALUES (...)`: insert
the row unless a row with the same primary key `id` already exists. -/
def insertOrIgnoreSetting (rows : List SettingsRow) (id : String) (ty : Int)
    (value : Option String) : List SettingsRow :=
  if rows.any (fun r => r.id = id) then rows else rows ++ [⟨id, value, ty⟩]

/-- The thirteen `INSERT OR IGNORE` statements of `setup_db`, in source
order, as `(id, type, value)` triples.  `B_savePrinterNotifications`
appears twice in the source script. -/
def defaultSettings : List (String × Int × Option String) :=
  [ ("S_devicePath", 0, none),
    ("N_deviceBaud", 2, none),
    ("B_startOnBoot", 1, some "false"),
    ("F_adjustCorrectionF", 3, none),
    ("B_savePrinterNotifications", 1, some "true"),
    ("B_savePrinterNotifications", 1, some "true"),
    ("N_deviceWidth", 2, none),
    ("N_deviceHeight", 2, none),
    ("N_deviceDepth", 2, none),
    ("B_deviceHB", 1, some "false"),
    ("B_deviceHC", 1, some "false"),
    ("N_clientTerminalAmount", 2, some "500"),
    ("S_sentryDsn", 0,
      some
        "https://cd35379ff0fc45daa30a67bfe9aa8b36@0229745.ingest.sentry.io/5778789")
  ]

/-- Whether `DELETE FROM tokens where expire < DATE('now')` removes a row:
its `expire` is non-NULL and strictly before the current date `now`
(a NULL comparison is not true, so NULL-expire rows are kept). -/
def tokenExpired (now : Int) (r : TokensRow) : Bool :=
  match r.expire with
  | some e => decide (e < now)
  | none => false

/-- The database bootstrap `setup_db` (src/main.rs lines 211-260): creates
the three tables if absent, seeds the settings via `INSERT OR IGNORE`, and
deletes token rows whose `expire` is strictly before the current date.
`now` is the value of `DATE('now')`. -/
def setup_db (now : Int) (db : DB) : DB :=
  { users := db.users,
    tokens := db.tokens.filter (fun r => !tokenExpired now r),
    settings :=
      defaultSettings.foldl
        (fun rows entry => insertOrIgnoreSetting rows entry.1 entry.2.1 entry.2.2)
        db.settings }

/-- The twelve distinct documented settings keys, in first-insert order. -/
def documentedKeys : List String :=
  [ "S_devicePath", "N_deviceBaud", "B_startOnBoot", "F_adjustCorrectionF",
    "B_savePrinterNotifications", "N_deviceWidth", "N_deviceHeight",
    "N_deviceDepth", "B_deviceHB", "B_deviceHC", "N_clientTerminalAmount",
    "S_sentryDsn" ]

theorem insertOrIgnoreSetting_extends (rows : List SettingsRow) (id : String)
    (ty : Int) (value : Option String) :
    ∃ extra, insertOrIgnoreSetting rows id ty value = rows ++ extra := by
  unfold insertOrIgnoreSetting
  split
  · exact ⟨[], (List.append_nil rows).symm⟩
  · exact ⟨[⟨id, value, ty⟩], rfl⟩

theorem settingsFold_extends (l : List (String × Int × Option String)) :
    ∀ rows : List SettingsRow,
      ∃ extra,
        l.foldl (fun rs e => insertOrIgnoreSetting rs e.1 e.2.1 e.2.2) rows
          = rows ++ extra := by
  induction l with
  | nil => exact fun rows => ⟨[], (List.append_nil rows).symm⟩
  | cons x xs ih =>
      intro rows
      obtain ⟨e1, h1⟩ := insertOrIgnoreSetting_extends rows x.1 x.2.1 x.2.2
      obtain ⟨e2, h2⟩ := ih (insertOrIgnoreSetting rows x.1 x.2.1 x.2.2)
      rw [h1] at h2
      refine ⟨e1 ++ e2, ?_⟩
      simp only [List.foldl_cons, h1, h2, List.append_assoc]

/-- C1: dequeuing `ConnectionCreate` while `bridge_thread` is already `Some`
is a fatal violation (panic, no second worker spawned); dequeuing it while
`bridge_thread` is `None` spawns a worker and sets the handle to `Some`, so
at most one bridge session is ever live. -/
theorem c1_connection_create_mutual_exclusion :
    ∀ (env : ChanEnv) (address : String) (port : Nat),
      routerStep env ⟨some ()⟩ ⟨.Bridge (.ConnectionCreate address port)⟩
        = .panic "Created connection before old connection was terminated"
            Outputs.empty
      ∧ routerStep env ⟨none⟩ ⟨.Bridge (.ConnectionCreate address port)⟩
          = .ok ⟨some ()⟩ { Outputs.empty with spawned := true } := by
  intro env address port
  exact ⟨rfl, rfl⟩

/-- C6: `ConnectionCreateError{error}` always forwards a
`Websocket.StateUpdate{ERRORED, Error{error}}` into the distribution path;
with a live session the worker is aborted, the handle cleared, and the
router continues; with no session the event is fatal. -/
theorem c6_connection_create_error_handling :
    ∀ error : String,
      routerStep openEnv ⟨some ()⟩ ⟨.Bridge (.ConnectionCreateError error)⟩
        = .ok ⟨none⟩
            { Outputs.empty with
                dist := [⟨.Websocket (.StateUpdate .ERRORED (.Error error))⟩],
                aborted := true }
      ∧ routerStep openEnv ⟨none⟩ ⟨.Bridge (.ConnectionCreateError error)⟩
          = .panic "Connection error when thread was already closed."
              { Outputs.empty with
                  dist :=
                    [⟨.Websocket (.StateUpdate .ERRORED (.Error error))⟩] } := by
  intro error
  exact ⟨rfl, rfl⟩

/-- C10: in every execution of the `ConnectionCreateError` branch with the
distribution channel alive, the `Websocket.StateUpdate{ERRORED}`
notification is enqueued on the distribution channel before the session
check, whatever the session state; in particular the fatal no-session case
panics only after the notification was enqueued. -/
theorem c10_error_notification_precedes_panic :
    ∀ (error : String) (st : RouterState) (bo wo : Bool),
      (routerStep ⟨true, bo, wo⟩ st
          ⟨.Bridge (.ConnectionCreateError error)⟩).outputs.dist
        = [⟨.Websocket (.StateUpdate .ERRORED (.Error error))⟩]
      ∧ routerStep ⟨true, bo, wo⟩ ⟨none⟩
            ⟨.Bridge (.ConnectionCreateError error)⟩
          = .panic "Connection error when thread was already closed."
              { Outputs.empty with
                  dist :=
                    [⟨.Websocket (.StateUpdate .ERRORED (.Error error))⟩] } := by
  intro error st bo wo
  refine ⟨?_, rfl⟩
  obtain ⟨_ | _⟩ := st <;> rfl

/-- C4: `PrintEnd` is forwarded to bridge-outbound unconditionally and
leaves the session handle unchanged, while `TerminalSend` and `PrintStart`
dequeued with no live session are not forwarded anywhere. -/
theorem c4_print_end_not_gated :
    ∀ (st : RouterState) (m : String) (info : PrintInfo),
      routerStep openEnv st ⟨.Bridge .PrintEnd⟩
        = .ok st { Outputs.empty with bridge := [⟨.Bridge .PrintEnd⟩] }
      ∧ routerStep openEnv ⟨none⟩ ⟨.Bridge (.TerminalSend m)⟩
          = .ok ⟨none⟩ Outputs.empty
      ∧ routerStep openEnv ⟨none⟩ ⟨.Bridge (.PrintStart info)⟩
          = .ok ⟨none⟩ Outputs.empty := by
  intro st m info
  exact ⟨rfl, rfl, rfl⟩

/-- C5: `TerminalRead{m}` yields exactly one `Websocket.TerminalRead{m}`
with the identical payload and nothing on bridge-outbound; `TerminalSend{m}`
accepted with a live session yields both the bridge-outbound forward and the
websocket-bound mirror, each carrying the identical payload. -/
theorem c5_payload_fidelity :
    ∀ (m : String) (st : RouterState),
      routerStep openEnv st ⟨.Bridge (.TerminalRead m)⟩
        = .ok st
            { Outputs.empty with dist := [⟨.Websocket (.TerminalRead m)⟩] }
      ∧ routerStep openEnv ⟨some ()⟩ ⟨.Bridge (.TerminalSend m)⟩
          = .ok ⟨some ()⟩
              { Outputs.empty with
                  bridge := [⟨.Bridge (.TerminalSend m)⟩],
                  dist := [⟨.Websocket (.TerminalSend m)⟩] } := by
  intro m st
  exact ⟨rfl, rfl⟩

/-- C2: a `StateUpdate` with a terminal state (`DISCONNECTED` or `ERRORED`)
dequeued with a live session emits exactly one `Kill` to bridge-outbound,
clears the session handle, and produces exactly one mirrored
`Websocket.StateUpdate` with the same state and description, which the
drained loop delivers to the websocket-outbound channel; with no live
session the event is dropped with no output and no state change. -/
theorem c2_terminal_state_update_teardown :
    ∀ (s : BridgeState) (d : StateDescription),
      s = .DISCONNECTED ∨ s = .ERRORED →
      routerStep openEnv ⟨some ()⟩ ⟨.Bridge (.StateUpdate s d)⟩
        = .ok ⟨none⟩
            { Outputs.empty with
                bridge := [⟨.KILL⟩],
                dist := [⟨.Websocket (.StateUpdate s d)⟩] }
      ∧ routerRun openEnv 2 ⟨some ()⟩ [⟨.Bridge (.StateUpdate s d)⟩]
          = .drained ⟨none⟩ [⟨.KILL⟩] [⟨.Websocket (.StateUpdate s d)⟩]
      ∧ routerStep openEnv ⟨none⟩ ⟨.Bridge (.StateUpdate s d)⟩
          = .ok ⟨none⟩ Outputs.empty := by
  intro s d h
  rcases h with h | h <;> subst h <;> exact ⟨rfl, rfl, rfl⟩

/-- Witness for C2 at `state = DISCONNECTED` with a concrete description. -/
theorem c2_terminal_state_update_teardown_witness :
    routerStep openEnv ⟨some ()⟩
        ⟨.Bridge (.StateUpdate .DISCONNECTED (.Other "device detached"))⟩
      = .ok ⟨none⟩
          { Outputs.empty with
              bridge := [⟨.KILL⟩],
              dist :=
                [⟨.Websocket
                    (.StateUpdate .DISCONNECTED (.Other "device detached"))⟩] }
    ∧ routerRun openEnv 2 ⟨some ()⟩
          [⟨.Bridge (.StateUpdate .DISCONNECTED (.Other "device detached"))⟩]
        = .drained ⟨none⟩ [⟨.KILL⟩]
            [⟨.Websocket
                (.StateUpdate .DISCONNECTED (.Other "device detached"))⟩]
    ∧ routerStep openEnv ⟨none⟩
          ⟨.Bridge (.StateUpdate .DISCONNECTED (.Other "device detached"))⟩
        = .ok ⟨none⟩ Outputs.empty :=
  c2_terminal_state_update_teardown .DISCONNECTED (.Other "device detached")
    (Or.inl rfl)

/-- Counterexample to C3: `PrintEnd` dequeued with `bridge_thread = None` is
not silently dropped — the router forwards it to bridge-outbound, a
non-empty output. -/
theorem c3_counterexample_print_end_forwarded_without_session :
    routerStep openEnv ⟨none⟩ ⟨.Bridge .PrintEnd⟩
      = .ok ⟨none⟩ { Outputs.empty with bridge := [⟨.Bridge .PrintEnd⟩] }
    ∧ ([⟨.Bridge .PrintEnd⟩] : List EventInfo) ≠ [] := by
  exact ⟨rfl, by simp⟩

/-- C3 amended: `TerminalSend` and `PrintStart` are forwarded to
bridge-outbound only while `bridge_thread` is `Some` and are silently
dropped otherwise (no message on any channel, no error); `PrintEnd`,
however, is forwarded to bridge-outbound unconditionally. -/
theorem c3_amended_command_gating :
    ∀ (m : String) (info : PrintInfo) (st : RouterState),
      routerStep openEnv ⟨none⟩ ⟨.Bridge (.TerminalSend m)⟩
        = .ok ⟨none⟩ Outputs.empty
      ∧ routerStep openEnv ⟨none⟩ ⟨.Bridge (.PrintStart info)⟩
          = .ok ⟨none⟩ Outputs.empty
      ∧ routerStep openEnv ⟨some ()⟩ ⟨.Bridge (.TerminalSend m)⟩
          = .ok ⟨some ()⟩
              { Outputs.empty with
                  bridge := [⟨.Bridge (.TerminalSend m)⟩],
                  dist := [⟨.Websocket (.TerminalSend m)⟩] }
      ∧ routerStep openEnv ⟨some ()⟩ ⟨.Bridge (.PrintStart info)⟩
          = .ok ⟨some ()⟩
              { Outputs.empty with bridge := [⟨.Bridge (.PrintStart info)⟩] }
      ∧ routerStep openEnv st ⟨.Bridge .PrintEnd⟩
          = .ok st { Outputs.empty with bridge := [⟨.Bridge .PrintEnd⟩] } := by
  intro m info st
  exact ⟨rfl, rfl, rfl, rfl, rfl⟩

/-- Counterexample to C7: the `Kill` send on the teardown path is performed
with its result discarded, so when the bridge-outbound receiver is gone the
send fails yet the router does not abort — it finishes the iteration
normally. -/
theorem c7_counterexample_kill_send_failure_ignored :
    routerStep ⟨true, false, true⟩ ⟨some ()⟩
        ⟨.Bridge (.StateUpdate .DISCONNECTED (.Other "cable pulled"))⟩
      = .ok ⟨none⟩
          { Outputs.empty with
              dist :=
                [⟨.Websocket
                    (.StateUpdate .DISCONNECTED (.Other "cable pulled"))⟩] }
    ∧ (routerStep ⟨true, false, true⟩ ⟨some ()⟩
          ⟨.Bridge (.StateUpdate .DISCONNECTED (.Other "cable pulled"))⟩).isPanic
        = false := by
  exact ⟨rfl, rfl⟩

/-- C7 amended: every outbound send the router performs through `expect`
(distribution, bridge-outbound, websocket-outbound, in every dispatching
branch) is fatal when the receiver is gone; the single exception is the
`Kill` send on the terminal-`StateUpdate` teardown path, whose failure is
discarded and the router continues. -/
theorem c7_amended_expect_sends_fatal :
    ∀ (m err : String) (d : StateDescription) (st : RouterState)
      (w : WebsocketEvents) (info : PrintInfo),
      (routerStep ⟨false, true, true⟩ st
          ⟨.Bridge (.TerminalRead m)⟩).isPanic = true
      ∧ (routerStep ⟨false, true, true⟩ st
            ⟨.Bridge (.ConnectionCreateError err)⟩).isPanic = true
      ∧ (routerStep ⟨true, false, true⟩ st ⟨.Bridge .PrintEnd⟩).isPanic = true
      ∧ (routerStep ⟨true, false, true⟩ ⟨some ()⟩
            ⟨.Bridge (.PrintStart info)⟩).isPanic = true
      ∧ (routerStep ⟨true, false, true⟩ ⟨some ()⟩
            ⟨.Bridge (.TerminalSend m)⟩).isPanic = true
      ∧ (routerStep ⟨false, true, true⟩ ⟨some ()⟩
            ⟨.Bridge (.TerminalSend m)⟩).isPanic = true
      ∧ (routerStep ⟨true, false, true⟩ ⟨some ()⟩
            ⟨.Bridge (.StateUpdate .CONNECTED d)⟩).isPanic = true
      ∧ (routerStep ⟨false, true, true⟩ ⟨some ()⟩
            ⟨.Bridge (.StateUpdate .CONNECTED d)⟩).isPanic = true
      ∧ (routerStep ⟨false, true, true⟩ ⟨some ()⟩
            ⟨.Bridge (.StateUpdate .DISCONNECTED d)⟩).isPanic = true
      ∧ (routerStep ⟨true, true, false⟩ st ⟨.Websocket w⟩).isPanic = true
      ∧ (routerStep ⟨true, false, true⟩ ⟨some ()⟩
            ⟨.Bridge (.StateUpdate .DISCONNECTED d)⟩).isPanic = false := by
  intro m err d st w info
  exact ⟨rfl, rfl, rfl, rfl, rfl, rfl, rfl, rfl, rfl, rfl, rfl⟩

/-- C9: the websocket-bound mirrors for bridge-originated `TerminalRead`,
`TerminalSend`, and `StateUpdate` events are never placed on the
websocket-outbound channel by the iteration that creates them (its ws output
is empty); they are enqueued on the distribution channel instead, and
draining the loop delivers exactly the directly-forwarded mirror to the
websocket-outbound channel one pass later. -/
theorem c9_mirrors_via_distribution_equal_direct_forwarding :
    ∀ (m : String) (s : BridgeState) (d : StateDescription) (st : RouterState),
      (routerStep openEnv st ⟨.Bridge (.TerminalRead m)⟩).outputs.ws = []
      ∧ (routerStep openEnv st ⟨.Bridge (.TerminalRead m)⟩).outputs.dist
          = directMirror st ⟨.Bridge (.TerminalRead m)⟩
      ∧ (routerRun openEnv 2 st [⟨.Bridge (.TerminalRead m)⟩]).wsOut
          = directMirror st ⟨.Bridge (.TerminalRead m)⟩
      ∧ (routerRun openEnv 2 st [⟨.Bridge (.TerminalRead m)⟩]).isDrained
          = true
      ∧ (routerStep openEnv st ⟨.Bridge (.TerminalSend m)⟩).outputs.ws = []
      ∧ (routerStep openEnv st ⟨.Bridge (.TerminalSend m)⟩).outputs.dist
          = directMirror st ⟨.Bridge (.TerminalSend m)⟩
      ∧ (routerRun openEnv 2 st [⟨.Bridge (.TerminalSend m)⟩]).wsOut
          = directMirror st ⟨.Bridge (.TerminalSend m)⟩
      ∧ (routerRun openEnv 2 st [⟨.Bridge (.TerminalSend m)⟩]).isDrained
          = true
      ∧ (routerStep openEnv st ⟨.Bridge (.StateUpdate s d)⟩).outputs.ws = []
      ∧ (routerStep openEnv st ⟨.Bridge (.StateUpdate s d)⟩).outputs.dist
          = directMirror st ⟨.Bridge (.StateUpdate s d)⟩
      ∧ (routerRun openEnv 2 st [⟨.Bridge (.StateUpdate s d)⟩]).wsOut
          = directMirror st ⟨.Bridge (.StateUpdate s d)⟩
      ∧ (routerRun openEnv 2 st [⟨.Bridge (.StateUpdate s d)⟩]).isDrained
          = true := by
  intro m s d st
  obtain ⟨_ | _⟩ := st <;> cases s <;>
    exact ⟨rfl, rfl, rfl, rfl, rfl, rfl, rfl, rfl, rfl, rfl, rfl, rfl⟩

theorem any_id_insertOrIgnoreSetting (rows : List SettingsRow) (id : String)
    (ty : Int) (value : Option String) :
    (insertOrIgnoreSetting rows id ty value).any (fun r => r.id = id)
      = true := by
  unfold insertOrIgnoreSetting
  split
  next h => simpa using h
  next h => simp

theorem settingsFold_preserves_any (l : List (String × Int × Option String))
    (rows : List SettingsRow) (p : SettingsRow → Bool)
    (h : rows.any p = true) :
    (l.foldl (fun rs e => insertOrIgnoreSetting rs e.1 e.2.1 e.2.2)
        rows).any p = true := by
  induction l generalizing rows with
  | nil => exact h
  | cons x xs ih =>
      simp only [List.foldl_cons]
      apply ih
      obtain ⟨extra, hx⟩ := insertOrIgnoreSetting_extends rows x.1 x.2.1 x.2.2
      rw [hx, List.any_append, h, Bool.true_or]

theorem settingsFold_mem_keys (l : List (String × Int × Option String))
    (rows : List SettingsRow) :
    ∀ e ∈ l,
      ((l.foldl (fun rs e => insertOrIgnoreSetting rs e.1 e.2.1 e.2.2)
          rows).any (fun r => r.id = e.1)) = true := by
  induction l generalizing rows with
  | nil => intro e he; cases he
  | cons x xs ih =>
      intro e he
      simp only [List.foldl_cons]
      rcases List.mem_cons.mp he with he | he
      · subst he
        exact settingsFold_preserves_any xs _ _
          (any_id_insertOrIgnoreSetting rows e.1 e.2.1 e.2.2)
      · exact ih _ e he

theorem settingsFold_id (l : List (String × Int × Option String))
    (rows : List SettingsRow)
    (h : ∀ e ∈ l, rows.any (fun r => r.id = e.1) = true) :
    l.foldl (fun rs e => insertOrIgnoreSetting rs e.1 e.2.1 e.2.2) rows
      = rows := by
  induction l with
  | nil => rfl
  | cons x xs ih =>
      have hx := h x (List.mem_cons_self x xs)
      have hstep : insertOrIgnoreSetting rows x.1 x.2.1 x.2.2 = rows := by
        unfold insertOrIgnoreSetting
        rw [if_pos hx]
      simp only [List.foldl_cons, hstep]
      exact ih fun e he => h e (List.mem_cons_of_mem x he)

set_option maxHeartbeats 800000 in
/-- C8: the bootstrap is idempotent — it never touches `users`, it only
appends missing default keys to `settings` (pre-existing rows are an
unchanged prefix), it removes exactly the token rows whose `expire` is
strictly before the current date, and on an empty store one or two runs
yield a `settings` table holding exactly the 12 documented keys with no
duplicates. -/
theorem c8_setup_db_idempotent :
    ∀ (now : Int) (db : DB),
      (setup_db now db).users = db.users
      ∧ (∃ extra, (setup_db now db).settings = db.settings ++ extra)
      ∧ (∀ r : TokensRow,
          r ∈ (setup_db now db).tokens ↔
            r ∈ db.tokens ∧ tokenExpired now r = false)
      ∧ (setup_db now emptyDB).settings.map SettingsRow.id = documentedKeys
      ∧ documentedKeys.Nodup
      ∧ setup_db now (setup_db now db) = setup_db now db := by
  intro now db
  refine ⟨rfl, ?_, ?_, ?_, by decide, ?_⟩
  · simp only [setup_db]
    exact settingsFold_extends defaultSettings db.settings
  · intro r
    simp [setup_db, List.mem_filter]
  · show (defaultSettings.foldl
        (fun rows entry =>
          insertOrIgnoreSetting rows entry.1 entry.2.1 entry.2.2)
        []).map SettingsRow.id = documentedKeys
    decide
  · refine DB.ext rfl ?_ ?_
    · simp only [setup_db]
      rw [List.filter_filter]
      simp
    · simp only [setup_db]
      exact settingsFold_id defaultSettings _
        (settingsFold_mem_keys defaultSettings db.settings)
